import Mathlib

/-!
Shallow embedding of the rsms orchestration layer (src/src/lib.rs,
src/src/main.rs) and proofs about its coordinator/worker lifecycle,
protocol-category derivation, session identity, accept loop, and
per-connection handler.

Machine integers of the source (`u16`, buffer bytes) are modelled as `Nat`;
none of the verified properties involves overflow.  Strings are Lean
`String`s.  The tokio/actix I/O collaborators are modelled by explicit
inputs (lists of accept/read/write results) and by an event trace recording
the calls the code issues, in the order the source issues them.
-/

namespace Rsms

/-- A socket address, as far as the source consults it: the source only
compares addresses (`Session` equality/hash) and prints them, so the model
keeps an ip string and a port. -/
structure SocketAddr where
  ip : String
  port : Nat
deriving DecidableEq

/-- The part of a `tokio::net::TcpStream` the source reads: `local_addr()`
and `peer_addr()` (both unwrapped in `lib.rs` lines 80-81, 92-93). -/
structure TcpStream where
  localAddr : SocketAddr
  peerAddr : SocketAddr
deriving DecidableEq

/-- `Category` from lib.rs lines 36-41: INVALID, RTMP, HTTP, RTSP. -/
inductive Category where
  | INVALID
  | RTMP
  | HTTP
  | RTSP
deriving DecidableEq

/-- `Category::from` (lib.rs lines 44-51): exact string match on the
profile name, anything unrecognized maps to INVALID.  (`from` is a Lean
keyword, hence the name `fromName`.) -/
def Category.fromName (name : String) : Category :=
  if name = "RTMP" then Category.RTMP
  else if name = "HTTP" then Category.HTTP
  else if name = "RTSP" then Category.RTSP
  else Category.INVALID

/-- `Session` (lib.rs lines 62-66): the transport handle, the protocol
category and the owning worker's port. -/
structure Session where
  stream : TcpStream
  category : Category
  port : Nat
deriving DecidableEq

/-- `Session::new` (lib.rs lines 69-75). -/
def Session.new (stream : TcpStream) (port : Nat) (category : Category) :
    Session :=
  { stream := stream, category := category, port := port }

/-- `impl PartialEq for Session` (lib.rs lines 88-95): port, category,
local address and peer address are compared in that order. -/
def Session.eq (s t : Session) : Bool :=
  decide (s.port = t.port) && decide (s.category = t.category)
    && decide (s.stream.localAddr = t.stream.localAddr)
    && decide (s.stream.peerAddr = t.stream.peerAddr)

/-- `Profile` (lib.rs lines 100-105). -/
structure Profile where
  name : String
  port : Nat
  log : Bool
  enable : Bool
deriving DecidableEq

/-- `Profile::RTMP` preset (lib.rs lines 108-113). -/
def Profile.RTMP : Profile := { name := "RTMP", port := 1935, log := true, enable := true }

/-- `Profile::HTTP` preset (lib.rs lines 115-120). -/
def Profile.HTTP : Profile := { name := "HTTP", port := 8080, log := true, enable := true }

/-- `Profile::RTSP` preset (lib.rs lines 122-127). -/
def Profile.RTSP : Profile := { name := "RTSP", port := 5544, log := true, enable := true }

/-- `Profile::GB28181` preset (lib.rs lines 129-134). -/
def Profile.GB28181 : Profile := { name := "GB28181", port := 5060, log := true, enable := true }

/-- `Profile::API_ADMIN` preset (lib.rs lines 136-141). -/
def Profile.API_ADMIN : Profile := { name := "HTTP", port := 8080, log := true, enable := true }

/-- `Watchdog` (lib.rs lines 200-205); `status : u8`, `counter : u64`,
`threshold : u16` modelled as `Nat`. -/
structure Watchdog where
  name : String
  status : Nat
  counter : Nat
  threshold : Nat
deriving DecidableEq

/-- `Watchdog::new` (lib.rs lines 207-214). -/
def Watchdog.new (name : String) : Watchdog :=
  { name := name, status := 0, counter := 0, threshold := 10 }

/-- `Analyzer` (lib.rs lines 181-186). -/
structure Analyzer where
  publishers : Nat
  subscribers : Nat
  api_admins : Nat
  delay_ms : Nat
deriving DecidableEq

/-- `Analyzer::new` (lib.rs lines 188-195). -/
def Analyzer.new : Analyzer :=
  { publishers := 0, subscribers := 0, api_admins := 0, delay_ms := 0 }

/-- `Context` (lib.rs lines 155-163).  `incoming` and `listener` are only
ever `None` in the source (the assignment at line 251 is commented out), so
their element types are irrelevant and modelled as `Unit`.  The two fixed
1024-byte buffers are lists of byte values. -/
structure Context where
  sessions : List Session
  watchdog : Watchdog
  analyzer : Analyzer
  incoming : Option Unit
  listener : Option Unit
  read_buf : List Nat
  write_buf : List Nat
deriving DecidableEq

/-- `Context::new` (lib.rs lines 166-176). -/
def Context.new : Context :=
  { sessions := []
    watchdog := Watchdog.new "Watchdog"
    analyzer := Analyzer.new
    incoming := none
    listener := none
    read_buf := List.replicate 1024 0
    write_buf := List.replicate 1024 0 }

/-- `Contributor` (lib.rs lines 228-231): an ordinary protocol worker,
owning one Profile and one Context. -/
structure Contributor where
  profile : Profile
  context : Context
deriving DecidableEq

/-- `Contributor::from` (lib.rs lines 234-239). -/
def Contributor.fromProfile (profile : Profile) : Contributor :=
  { profile := profile, context := Context.new }

/-- `impl Serve for Contributor`, `init` (lib.rs line 295): empty body. -/
def Contributor.init (c : Contributor) : Contributor := c

/-- `impl Serve for Contributor`, `start` (lib.rs line 297): empty body. -/
def Contributor.start (c : Contributor) : Contributor := c

/-- `impl Serve for Contributor`, `stop` (lib.rs line 299): empty body. -/
def Contributor.stop (c : Contributor) : Contributor := c

/-- `impl Serve for Contributor`, `destroy` (lib.rs line 301): empty body. -/
def Contributor.destroy (c : Contributor) : Contributor := c

/-- `impl Serve for Contributor`, `on_read` (lib.rs line 303): empty body. -/
def Contributor.on_read (c : Contributor) : Contributor := c

/-- `impl Serve for Contributor`, `on_write` (lib.rs line 305): empty body. -/
def Contributor.on_write (c : Contributor) : Contributor := c

/-- `impl Serve for Contributor`, `on_error` (lib.rs line 307): empty body. -/
def Contributor.on_error (c : Contributor) : Contributor := c

/-- `AdminContributor` (lib.rs lines 384-387): wraps a Contributor and an
optional actix server handle.  The handle is only ever `None` in the
source (`startup` binds its server to a local variable, never to
`self.server`), so its element type is modelled as `Unit`. -/
structure AdminContributor where
  this : Contributor
  server : Option Unit
deriving DecidableEq

/-- `AdminContributor::from` (lib.rs lines 390-395). -/
def AdminContributor.fromProfile (profile : Profile) : AdminContributor :=
  { this := Contributor.fromProfile profile, server := none }

/-- Who a lifecycle call is addressed to: the Coordinator's distinguished
administrative worker, or the ordinary worker at a given position of the
`others` collection. -/
inductive Target where
  | admin
  | ordinary (idx : Nat)
deriving DecidableEq

/-- Observable events of a run: the lifecycle calls the Commander issues
(in source order), entry into a worker's `startup`, a written log line,
and a shutdown request.  No code path of the source ever emits
`shutdownRequest`; the constructor exists so that statements about
shutdown can be expressed over traces. -/
inductive Event where
  | initCall (t : Target)
  | startCall (t : Target)
  | stopCall (t : Target)
  | destroyCall (t : Target)
  | startupCall (t : Target)
  | logLine (s : String)
  | shutdownRequest
deriving DecidableEq

/-- The target of a lifecycle-call event, if the event is one. -/
def Event.target : Event → Option Target
  | Event.initCall t => some t
  | Event.startCall t => some t
  | Event.stopCall t => some t
  | Event.destroyCall t => some t
  | Event.startupCall t => some t
  | Event.logLine _ => none
  | Event.shutdownRequest => none

/-- The closed set of `Box<dyn Serve>` instantiations that occur in the
source: `AdminContributor` (boxed in `Commander::from`, lib.rs line 320)
and `Contributor` (boxed in `Commander::init`, lines 336-338). -/
inductive Worker where
  | admin (a : AdminContributor)
  | ordinary (c : Contributor)
deriving DecidableEq

/-- Dynamic dispatch of `init`.  `Contributor::init` is a no-op (line 295).
`AdminContributor::init` (lines 408-412) blocks on `startup`, which binds
and runs the actix HTTP server and leaves `self` unchanged (the server
value is a local, line 399); the model records the entry into `startup` as
an event — the serving loop itself is external I/O. -/
def Worker.applyInit : Worker → Worker × List Event
  | Worker.admin a => (Worker.admin a, [Event.startupCall Target.admin])
  | Worker.ordinary c => (Worker.ordinary (Contributor.init c), [])

/-- Dynamic dispatch of `start`: empty bodies on both worker kinds
(lib.rs lines 297 and 414). -/
def Worker.applyStart : Worker → Worker × List Event
  | Worker.admin a => (Worker.admin a, [])
  | Worker.ordinary c => (Worker.ordinary (Contributor.start c), [])

/-- Dynamic dispatch of `stop`: empty bodies on both worker kinds
(lib.rs lines 299 and 416). -/
def Worker.applyStop : Worker → Worker × List Event
  | Worker.admin a => (Worker.admin a, [])
  | Worker.ordinary c => (Worker.ordinary (Contributor.stop c), [])

/-- Dynamic dispatch of `destroy`: empty bodies on both worker kinds
(lib.rs lines 301 and 418). -/
def Worker.applyDestroy : Worker → Worker × List Event
  | Worker.admin a => (Worker.admin a, [])
  | Worker.ordinary c => (Worker.ordinary (Contributor.destroy c), [])

/-- `Commander` (lib.rs lines 312-315): the Coordinator, owning the
distinguished administrative worker `this` and the ordinary-worker
collection `others`. -/
structure Commander where
  this : Worker
  others : List Worker
deriving DecidableEq

/-- `Commander::from` (lib.rs lines 318-323). -/
def Commander.fromProfile (profile : Profile) : Commander :=
  { this := Worker.admin (AdminContributor.fromProfile profile), others := [] }

/-- `Commander::new` (lib.rs lines 325-327). -/
def Commander.new : Commander :=
  Commander.fromProfile Profile.API_ADMIN

/-- The three ordinary workers `Commander::init` pushes
(lib.rs lines 336-338), in push order. -/
def ordinaryPresets : List Worker :=
  [Worker.ordinary (Contributor.fromProfile Profile.RTMP),
   Worker.ordinary (Contributor.fromProfile Profile.HTTP),
   Worker.ordinary (Contributor.fromProfile Profile.RTSP)]

/-- The `for item in &mut self.others` propagation loops of
`Commander::{init, start, stop, destroy}` (lib.rs lines 341-343, 348-350,
354-356, 360-362): apply `f` to each worker in insertion order, emitting a
call event (targeted at the worker's position, counted from `k`) followed
by the worker's own events. -/
def propagate (f : Worker → Worker × List Event) (mkEv : Target → Event) :
    List Worker → Nat → List Worker × List Event
  | [], _ => ([], [])
  | w :: rest, k =>
    let r := f w
    let rr := propagate f mkEv rest (k + 1)
    (r.1 :: rr.1, (mkEv (Target.ordinary k) :: r.2) ++ rr.2)

/-- `Commander::init` (lib.rs lines 335-344): push the three presets onto
`others`, then call `init` on `this`, then on each element of `others` in
insertion order. -/
def Commander.init (c : Commander) : Commander × List Event :=
  let others := c.others ++ ordinaryPresets
  let rt := Worker.applyInit c.this
  let ro := propagate Worker.applyInit Event.initCall others 0
  ({ this := rt.1, others := ro.1 },
   (Event.initCall Target.admin :: rt.2) ++ ro.2)

/-- `Commander::start` (lib.rs lines 346-351): call `start` on `this`,
then on each element of `others` in insertion order. -/
def Commander.start (c : Commander) : Commander × List Event :=
  let rt := Worker.applyStart c.this
  let ro := propagate Worker.applyStart Event.startCall c.others 0
  ({ this := rt.1, others := ro.1 },
   (Event.startCall Target.admin :: rt.2) ++ ro.2)

/-- `Commander::stop` (lib.rs lines 353-357): call `stop` on each element
of `others` only; `this` is not called. -/
def Commander.stop (c : Commander) : Commander × List Event :=
  let ro := propagate Worker.applyStop Event.stopCall c.others 0
  ({ this := c.this, others := ro.1 }, ro.2)

/-- `Commander::destroy` (lib.rs lines 359-363): call `destroy` on each
element of `others` only; `this` is not called. -/
def Commander.destroy (c : Commander) : Commander × List Event :=
  let ro := propagate Worker.applyDestroy Event.destroyCall c.others 0
  ({ this := c.this, others := ro.1 }, ro.2)

/-- `Commander::run_loop` (lib.rs lines 329-332): prints "loop start" and
returns; there is no loop, no wait, and no shutdown check in the body. -/
def Commander.runLoop (c : Commander) : Commander × List Event :=
  (c, [Event.logLine "loop start"])

/-- `main` (main.rs lines 5-13): log a banner, then
`init → start → run_loop → stop → destroy` on a fresh Commander.  Returns
the final Commander and the full event trace. -/
def mainRun : Commander × List Event :=
  let c0 := Commander.new
  let r1 := c0.init
  let r2 := r1.1.start
  let r3 := r2.1.runLoop
  let r4 := r3.1.stop
  let r5 := r4.1.destroy
  (r5.1, Event.logLine "rsms initializing..." :: (r1.2 ++ r2.2 ++ r3.2 ++ r4.2 ++ r5.2))

/-- The event trace of one run of `main`. -/
def mainTrace : List Event := mainRun.2

/-- Outcome of one `listener.accept().await` in the accept loop of
`Contributor::startup` (lib.rs line 254): a new connection, or an error. -/
inductive AcceptResult where
  | conn (stream : TcpStream)
  | err (msg : String)
deriving DecidableEq

/-- The accept loop of `Contributor::startup` (lib.rs lines 253-290),
driven by a finite script of accept outcomes.  On `Ok`, the source spawns
a handler task for the connection and loops; the model collects the
spawned connections in order.  On `Err`, the source's
`.expect("accept error")` aborts the whole loop: the result's second
component is the abort message and nothing after the error is processed.
An exhausted script corresponds to the loop still blocked in `accept`,
reported as abort message `none` with all scripted connections handled. -/
def acceptLoop (profile : Profile) :
    List AcceptResult → List TcpStream × Option String
  | [] => ([], none)
  | AcceptResult.conn s :: rest =>
    let r := acceptLoop profile rest
    (s :: r.1, r.2)
  | AcceptResult.err _ :: _ => ([], some "accept error")

/-- The connections of an accept script, in order. -/
def connsOf : List AcceptResult → List TcpStream
  | [] => []
  | AcceptResult.conn s :: rest => s :: connsOf rest
  | AcceptResult.err _ :: rest => connsOf rest

/-- Outcome of one `socket.read` in the per-connection handler
(lib.rs line 269): `ok n` bytes read, or an error. -/
inductive IOResult where
  | ok (n : Nat)
  | err (msg : String)
deriving DecidableEq

/-- Why the per-connection handler returned. -/
inductive HandlerExit where
  | peerClosed
  | readError (msg : String)
  | writeError (msg : String)
  | pending
deriving DecidableEq

/-- The per-connection handler task of `Contributor::startup`
(lib.rs lines 265-289), driven by a finite script of iterations; each
iteration supplies the read outcome and, if a write happens, its failure
(`some msg`) or success (`none`).  Control flow of the source: a
zero-length read returns (peer closed); a read error is logged and
returns; otherwise the fixed HTTP response is written, a write error is
logged and returns, and on success the loop repeats.  The handler takes
the owning Context's live-session list and returns it on exit: the source
never touches it — `Session` construction (lines 259-263) and
`sessions.push_back` (line 287) are commented out, and no removal exists —
so the list is returned unchanged on every path.  An exhausted script is
the handler still blocked in `read`, reported as `pending`. -/
def connHandler (sessions : List Session) :
    List (IOResult × Option String) → List Session × HandlerExit
  | [] => (sessions, HandlerExit.pending)
  | (IOResult.ok 0, _) :: _ => (sessions, HandlerExit.peerClosed)
  | (IOResult.ok (_ + 1), some e) :: _ => (sessions, HandlerExit.writeError e)
  | (IOResult.ok (_ + 1), none) :: rest => connHandler sessions rest
  | (IOResult.err e, _) :: _ => (sessions, HandlerExit.readError e)

/-- The registration step the accept loop performs on an accepted
connection's Context.  In the source this is the commented-out block of
lib.rs lines 259-263 and 287: no Session is constructed and nothing is
pushed into `context.sessions`, so the Context is returned unchanged. -/
def onAccept (ctx : Context) (stream : TcpStream) : Context := ctx

/-- The bind address string of `Contributor::startup`
(lib.rs line 242): `format!("127.0.0.1:{}", self.profile.port)`. -/
def bindAddr (p : Profile) : String :=
  "127.0.0.1:" ++ toString p.port

/-- The message given to `.expect` on bind failure
(lib.rs line 245): `format!("Bind {} failed", &addr)`. -/
def bindFailMsg (p : Profile) : String :=
  "Bind " ++ (bindAddr p ++ " failed")

/-- The full panic message surfaced when the bind fails: Rust's
`Result::expect` appends `": "` and the error value to the given message. -/
def bindPanicMsg (p : Profile) (cause : String) : String :=
  bindFailMsg p ++ (": " ++ cause)

/-- The success-side log of the bind (lib.rs lines 247-249): if
`profile.log` is set, print the protocol name and the bound address. -/
def bindOkLog (p : Profile) : Option String :=
  if p.log then some (p.name ++ (" Bind " ++ bindAddr p)) else none

/-- `needle` is a prefix of `hay` (character lists). -/
def charsHasPre : List Char → List Char → Bool
  | _, [] => true
  | [], _ :: _ => false
  | a :: as, b :: bs => (a == b) && charsHasPre as bs

/-- `needle` occurs contiguously somewhere in `hay` (character lists). -/
def charsHasSub (hay needle : List Char) : Bool :=
  match hay with
  | [] => needle.isEmpty
  | _ :: rest => charsHasPre hay needle || charsHasSub rest needle

/-- `needle` occurs contiguously somewhere in `hay` (strings). -/
def strHasSub (hay needle : String) : Bool :=
  charsHasSub hay.data needle.data

/-- A sample peer connection used in concrete counterexamples. -/
def demoStream : TcpStream :=
  { localAddr := { ip := "127.0.0.1", port := 1935 }
    peerAddr := { ip := "127.0.0.1", port := 50000 } }

/-- Each `apply` dispatch of `init` leaves the worker's state unchanged:
`Contributor::init` has an empty body and `AdminContributor::init` never
writes to `self`. -/
theorem Worker.applyInit_fst (w : Worker) : (Worker.applyInit w).1 = w := by
  cases w <;> rfl

/-- `start` dispatch emits no events of its own. -/
theorem Worker.applyStart_snd (w : Worker) : (Worker.applyStart w).2 = [] := by
  cases w <;> rfl

/-- `stop` dispatch emits no events of its own. -/
theorem Worker.applyStop_snd (w : Worker) : (Worker.applyStop w).2 = [] := by
  cases w <;> rfl

/-- `destroy` dispatch emits no events of its own. -/
theorem Worker.applyDestroy_snd (w : Worker) : (Worker.applyDestroy w).2 = [] := by
  cases w <;> rfl

/-- A propagation loop whose per-worker action does not change worker
state maps the collection to itself. -/
theorem propagate_fst (f : Worker → Worker × List Event) (mk : Target → Event)
    (hf : ∀ w, (f w).1 = w) :
    ∀ (ws : List Worker) (k : Nat), (propagate f mk ws k).1 = ws := by
  intro ws
  induction ws with
  | nil => intro k; rfl
  | cons w rest ih => intro k; simp [propagate, hf, ih]

/-- A propagation loop whose per-worker action emits no events of its own
produces exactly one call event per worker, targeted at consecutive
positions in insertion order. -/
theorem propagate_events (f : Worker → Worker × List Event) (mk : Target → Event) :
    ∀ (ws : List Worker) (k : Nat), (∀ w ∈ ws, (f w).2 = []) →
      (propagate f mk ws k).2
        = (List.range ws.length).map fun i => mk (Target.ordinary (k + i)) := by
  intro ws
  induction ws with
  | nil => intro k _; rfl
  | cons w rest ih =>
    intro k h
    have hw : (f w).2 = [] := h w (List.mem_cons_self w rest)
    have hr := ih (k + 1) fun x hx => h x (List.mem_cons_of_mem w hx)
    have harg : ((fun i => mk (Target.ordinary (k + i))) ∘ Nat.succ)
        = fun i => mk (Target.ordinary (k + 1 + i)) := by
      funext i
      simp only [Function.comp]
      have hki : k + Nat.succ i = k + 1 + i := by omega
      rw [hki]
    simp [propagate, hw, hr, List.range_succ_eq_map, List.map_map, harg]

/-- `Commander::init` appends exactly the three preset ordinary workers to
the `others` collection (the per-worker `init` calls change no state). -/
theorem init_others_append (c : Commander) :
    (c.init).1.others = c.others ++ ordinaryPresets := by
  show (propagate Worker.applyInit Event.initCall (c.others ++ ordinaryPresets) 0).1
      = c.others ++ ordinaryPresets
  exact propagate_fst Worker.applyInit Event.initCall Worker.applyInit_fst _ 0

/-- C1 (counterexample): `Commander::init` is not idempotent with respect
to worker registration — starting from a fresh Commander, the
ordinary-worker collection after two consecutive `init` calls differs
from the collection after one call (six workers versus three). -/
theorem commander_init_not_idempotent_cex :
    ((Commander.new.init).1.init).1.others ≠ (Commander.new.init).1.others := by
  intro h
  have h6 : (((Commander.new.init).1.init).1.others).length = 6 := by rfl
  have h3 : ((Commander.new.init).1.others).length = 3 := by rfl
  rw [h, h3] at h6
  exact absurd h6 (by decide)

/-- C1 (amended): every call to `Commander::init` appends the three preset
ordinary workers to the collection, so two consecutive calls leave the
collection equal to the original followed by two copies of the presets,
not one. -/
theorem commander_init_registration (c : Commander) :
    (c.init).1.others = c.others ++ ordinaryPresets ∧
    ((c.init).1.init).1.others = (c.others ++ ordinaryPresets) ++ ordinaryPresets := by
  refine ⟨init_others_append c, ?_⟩
  rw [init_others_append, init_others_append]

/-- C1 (witness): the amended statement at the fresh Commander of `main`. -/
theorem commander_init_registration_witness :
    ((Commander.new.init).1.init).1.others
      = (Commander.new.others ++ ordinaryPresets) ++ ordinaryPresets :=
  (commander_init_registration Commander.new).2

/-- C6: `Commander::init` appends the preset ordinary workers first, then
issues `init` to the administrative worker (which enters its startup) and
then to each ordinary worker in insertion order; `Commander::start` issues
`start` to the administrative worker first, then to each ordinary worker
in insertion order.  The hypotheses pin the worker kinds to those the
source ever constructs: `this` an administrative worker, `others` ordinary
workers. -/
theorem lifecycle_propagation_order (c : Commander)
    (hthis : ∃ a, c.this = Worker.admin a)
    (hoth : ∀ w ∈ c.others, ∃ ct, w = Worker.ordinary ct) :
    (c.init).1.others = c.others ++ ordinaryPresets ∧
    (c.init).2
      = Event.initCall Target.admin :: Event.startupCall Target.admin ::
        ((List.range (c.others.length + 3)).map
          fun i => Event.initCall (Target.ordinary i)) ∧
    (c.start).2
      = Event.startCall Target.admin ::
        ((List.range c.others.length).map
          fun i => Event.startCall (Target.ordinary i)) := by
  obtain ⟨a, ha⟩ := hthis
  refine ⟨init_others_append c, ?_, ?_⟩
  · have hall : ∀ w ∈ c.others ++ ordinaryPresets, (Worker.applyInit w).2 = [] := by
      intro w hw
      rcases List.mem_append.mp hw with hw | hw
      · obtain ⟨ct, rfl⟩ := hoth w hw
        rfl
      · simp only [ordinaryPresets, List.mem_cons, List.mem_singleton] at hw
        rcases hw with rfl | rfl | rfl | hw
        · rfl
        · rfl
        · rfl
        · simp at hw
    have hp := propagate_events Worker.applyInit Event.initCall
      (c.others ++ ordinaryPresets) 0 hall
    show (Event.initCall Target.admin :: (Worker.applyInit c.this).2)
        ++ (propagate Worker.applyInit Event.initCall (c.others ++ ordinaryPresets) 0).2
      = _
    rw [ha, hp]
    simp [Worker.applyInit, ordinaryPresets]
  · have hall : ∀ w ∈ c.others, (Worker.applyStart w).2 = [] :=
      fun w _ => Worker.applyStart_snd w
    have hp := propagate_events Worker.applyStart Event.startCall c.others 0 hall
    show (Event.startCall Target.admin :: (Worker.applyStart c.this).2)
        ++ (propagate Worker.applyStart Event.startCall c.others 0).2
      = _
    rw [ha, hp]
    simp [Worker.applyStart]

/-- C6 (witness): the propagation order at the fresh Commander of `main`:
admin `init` first (entering its startup), then the three ordinary workers
in insertion order. -/
theorem lifecycle_propagation_order_witness :
    (Commander.new.init).2
      = Event.initCall Target.admin :: Event.startupCall Target.admin ::
        ((List.range 3).map fun i => Event.initCall (Target.ordinary i)) := by
  have h := lifecycle_propagation_order Commander.new
    ⟨AdminContributor.fromProfile Profile.API_ADMIN, rfl⟩
    (by intro w hw; simp [Commander.new, Commander.fromProfile] at hw)
  simpa [Commander.new, Commander.fromProfile] using h.2.1

/-- C7: `Commander::stop` and `Commander::destroy` propagate to the
ordinary workers only — the administrative worker's state is unchanged and
no event of either trace is addressed to it. -/
theorem stop_destroy_exclude_admin (c : Commander) :
    (c.stop).1.this = c.this ∧ (c.destroy).1.this = c.this ∧
    (∀ e ∈ (c.stop).2, Event.target e ≠ some Target.admin) ∧
    (∀ e ∈ (c.destroy).2, Event.target e ≠ some Target.admin) := by
  refine ⟨rfl, rfl, ?_, ?_⟩
  · intro e he
    have h2 : (c.stop).2 = (List.range c.others.length).map
        fun i => Event.stopCall (Target.ordinary (0 + i)) :=
      propagate_events Worker.applyStop Event.stopCall c.others 0
        fun w _ => Worker.applyStop_snd w
    rw [h2] at he
    simp only [List.mem_map] at he
    obtain ⟨i, _, rfl⟩ := he
    simp [Event.target]
  · intro e he
    have h2 : (c.destroy).2 = (List.range c.others.length).map
        fun i => Event.destroyCall (Target.ordinary (0 + i)) :=
      propagate_events Worker.applyDestroy Event.destroyCall c.others 0
        fun w _ => Worker.applyDestroy_snd w
    rw [h2] at he
    simp only [List.mem_map] at he
    obtain ⟨i, _, rfl⟩ := he
    simp [Event.target]

/-- C7 (witness): the administrative worker of the initialized Commander
of `main` is unchanged by `stop`. -/
theorem stop_destroy_exclude_admin_witness :
    ((Commander.new.init).1.stop).1.this = (Commander.new.init).1.this :=
  (stop_destroy_exclude_admin (Commander.new.init).1).1

/-- C2 (counterexample): a failed `accept` does not leave the loop
accepting — with a script in which the first accept fails and a connection
arrives next, the loop aborts with the panic message "accept error" and
the subsequent connection is never accepted. -/
theorem accept_error_kills_loop_cex :
    (acceptLoop Profile.RTMP
        [AcceptResult.err "Too many open files", AcceptResult.conn demoStream]).2
      = some "accept error" ∧
    demoStream ∉ (acceptLoop Profile.RTMP
        [AcceptResult.err "Too many open files", AcceptResult.conn demoStream]).1 := by
  decide

/-- C2 (amended): a failure of a single `accept` call is fatal for the
worker: the `.expect("accept error")` at lib.rs line 254 aborts the whole
accept loop with panic message "accept error", exactly the connections
scripted before the first error are accepted, and nothing after the error
is processed. -/
theorem accept_error_aborts_loop (p : Profile) (pre rest : List AcceptResult)
    (e : String) (h : ∀ r ∈ pre, ∃ s, r = AcceptResult.conn s) :
    acceptLoop p (pre ++ AcceptResult.err e :: rest)
      = (connsOf pre, some "accept error") := by
  induction pre with
  | nil => rfl
  | cons r pre ih =>
    obtain ⟨s, rfl⟩ := h r (List.mem_cons_self r pre)
    have hr := ih fun x hx => h x (List.mem_cons_of_mem _ hx)
    simp [acceptLoop, connsOf, hr]

/-- C2 (witness): the amended statement on a concrete script — one
connection, then a failed accept, then another connection: only the first
connection is accepted and the loop aborts. -/
theorem accept_error_aborts_loop_witness :
    acceptLoop Profile.RTMP
        [AcceptResult.conn demoStream, AcceptResult.err "interrupted",
         AcceptResult.conn demoStream]
      = ([demoStream], some "accept error") := by
  have h := accept_error_aborts_loop Profile.RTMP [AcceptResult.conn demoStream]
    [AcceptResult.conn demoStream] "interrupted"
    (by intro r hr; simp only [List.mem_singleton] at hr; exact ⟨demoStream, hr⟩)
  simpa [connsOf] using h

/-- C3: the per-connection handler terminates on a zero-length read, but
the Context's live-session list is never modified by the accept path or
the handler — in the source, Session registration (lib.rs lines 259-263,
287) is commented out, so nothing is ever added and hence nothing is
removed; in particular a connection that sends zero bytes then closes
leaves the live set exactly as it was (empty for a fresh Context). -/
theorem sessions_live_set_untouched :
    (∀ (ss : List Session) (script : List (IOResult × Option String)),
        (connHandler ss script).1 = ss) ∧
    (onAccept Context.new demoStream).sessions = [] ∧
    connHandler (onAccept Context.new demoStream).sessions [(IOResult.ok 0, none)]
      = ([], HandlerExit.peerClosed) := by
  refine ⟨?_, rfl, rfl⟩
  intro ss script
  induction script with
  | nil => rfl
  | cons step rest ih =>
    obtain ⟨r, w⟩ := step
    cases r with
    | ok n =>
      cases n with
      | zero => rfl
      | succ m =>
        cases w with
        | none => simpa [connHandler] using ih
        | some e => rfl
    | err e => rfl

/-- C8: `Commander::run_loop` returns immediately for every Commander —
its whole behavior is printing "loop start" — and its trace contains no
shutdown request, so it does not stay resident while the process should
keep serving. -/
theorem run_loop_returns_immediately (c : Commander) :
    (c.runLoop).1 = c ∧ (c.runLoop).2 = [Event.logLine "loop start"] ∧
    Event.shutdownRequest ∉ (c.runLoop).2 := by
  refine ⟨rfl, rfl, ?_⟩
  simp [Commander.runLoop]

/-- C8 (witness): the statement at the Commander `main` constructs. -/
theorem run_loop_returns_immediately_witness :
    (Commander.new.runLoop).2 = [Event.logLine "loop start"] :=
  (run_loop_returns_immediately Commander.new).2.1

/-- C10: every operation of `impl Serve for Contributor` is a no-op
leaving the Profile and Context unchanged, and in the run of `main` no
ordinary worker ever enters `Contributor::startup` (the only `startup`
entered is the administrative worker's). -/
theorem contributor_lifecycle_noop :
    (∀ c : Contributor,
        Contributor.init c = c ∧ Contributor.start c = c ∧
        Contributor.stop c = c ∧ Contributor.destroy c = c ∧
        Contributor.on_read c = c ∧ Contributor.on_write c = c ∧
        Contributor.on_error c = c) ∧
    ∀ i : Nat, Event.startupCall (Target.ordinary i) ∉ mainTrace := by
  constructor
  · intro c
    exact ⟨rfl, rfl, rfl, rfl, rfl, rfl, rfl⟩
  · intro i
    have h : mainTrace
        = [Event.logLine "rsms initializing...",
           Event.initCall Target.admin, Event.startupCall Target.admin,
           Event.initCall (Target.ordinary 0), Event.initCall (Target.ordinary 1),
           Event.initCall (Target.ordinary 2),
           Event.startCall Target.admin,
           Event.startCall (Target.ordinary 0), Event.startCall (Target.ordinary 1),
           Event.startCall (Target.ordinary 2),
           Event.logLine "loop start",
           Event.stopCall (Target.ordinary 0), Event.stopCall (Target.ordinary 1),
           Event.stopCall (Target.ordinary 2),
           Event.destroyCall (Target.ordinary 0), Event.destroyCall (Target.ordinary 1),
           Event.destroyCall (Target.ordinary 2)] := by rfl
    rw [h]
    simp

/-- C10 (witness): the no-op statement at the RTMP preset worker and the
absence of a startup of the first ordinary worker in the `main` trace. -/
theorem contributor_lifecycle_noop_witness :
    Contributor.init (Contributor.fromProfile Profile.RTMP)
        = Contributor.fromProfile Profile.RTMP ∧
    Event.startupCall (Target.ordinary 0) ∉ mainTrace :=
  ⟨(contributor_lifecycle_noop.1 (Contributor.fromProfile Profile.RTMP)).1,
   contributor_lifecycle_noop.2 0⟩

/-- C4: `Category::from` is a total function on strings by exact match:
the three recognized names map to their three pairwise-distinct
non-INVALID categories, and every other string maps to INVALID. -/
theorem category_from_exact_match :
    Category.fromName "RTMP" = Category.RTMP ∧
    Category.fromName "HTTP" = Category.HTTP ∧
    Category.fromName "RTSP" = Category.RTSP ∧
    (Category.RTMP ≠ Category.INVALID ∧ Category.HTTP ≠ Category.INVALID ∧
      Category.RTSP ≠ Category.INVALID ∧ Category.RTMP ≠ Category.HTTP ∧
      Category.RTMP ≠ Category.RTSP ∧ Category.HTTP ≠ Category.RTSP) ∧
    ∀ s : String, s ≠ "RTMP" → s ≠ "HTTP" → s ≠ "RTSP" →
      Category.fromName s = Category.INVALID := by
  refine ⟨by decide, by decide, by decide, by decide, ?_⟩
  intro s h1 h2 h3
  simp [Category.fromName, h1, h2, h3]

/-- C4 (witness): an unrecognized name — the GB28181 preset's — maps to
INVALID. -/
theorem category_from_exact_match_witness :
    Category.fromName "GB28181" = Category.INVALID :=
  category_from_exact_match.2.2.2.2 "GB28181" (by decide) (by decide) (by decide)

/-- C5: Session equality is componentwise — two Sessions are equal exactly
when the protocol category, the local address, the peer address and the
bound port all agree. -/
theorem session_eq_componentwise (s t : Session) :
    Session.eq s t = true ↔
      (s.category = t.category ∧ s.stream.localAddr = t.stream.localAddr ∧
        s.stream.peerAddr = t.stream.peerAddr ∧ s.port = t.port) := by
  simp only [Session.eq, Bool.and_eq_true, decide_eq_true_eq]
  tauto

/-- C5 (witness): a Session equals a componentwise-identical Session. -/
theorem session_eq_componentwise_witness :
    Session.eq (Session.new demoStream 1935 (Category.fromName "RTMP"))
        (Session.new demoStream 1935 (Category.fromName "RTMP")) = true :=
  (session_eq_componentwise _ _).mpr ⟨rfl, rfl, rfl, rfl⟩

/-- A needle is a prefix of itself followed by anything. -/
theorem charsHasPre_self_append (n t : List Char) :
    charsHasPre (n ++ t) n = true := by
  induction n with
  | nil => cases t <;> simp [charsHasPre]
  | cons a as ih => simp [charsHasPre, ih]

/-- A prefix occurrence is an occurrence. -/
theorem charsHasSub_of_pre (hay n : List Char) (h : charsHasPre hay n = true) :
    charsHasSub hay n = true := by
  cases hay with
  | nil =>
    cases n with
    | nil => rfl
    | cons b bs => simp [charsHasPre] at h
  | cons a rest => simp [charsHasSub, h]

/-- Occurrences survive prepending. -/
theorem charsHasSub_append_left (h t n : List Char)
    (hh : charsHasSub t n = true) : charsHasSub (h ++ t) n = true := by
  induction h with
  | nil => simpa using hh
  | cons a as ih => simp [charsHasSub, ih]

/-- A needle occurs in itself followed by anything. -/
theorem charsHasSub_self_append (n t : List Char) :
    charsHasSub (n ++ t) n = true :=
  charsHasSub_of_pre _ _ (charsHasPre_self_append n t)

/-- A needle occurs in itself. -/
theorem charsHasSub_self (n : List Char) : charsHasSub n n = true := by
  have h := charsHasSub_self_append n []
  simpa using h

/-- C9 (counterexample): the bind-failure message does not contain the
protocol name — for the RTMP worker with a concrete underlying cause, the
surfaced panic message "Bind 127.0.0.1:1935 failed: ..." has no occurrence
of "RTMP". -/
theorem bind_failure_message_lacks_name :
    strHasSub (bindPanicMsg Profile.RTMP "Address already in use (os error 98)")
        Profile.RTMP.name = false := by
  decide

/-- C9 (amended): on bind failure the surfaced message contains the
attempted address and the underlying cause, but not necessarily the
protocol name; on successful bind with the Profile's log flag set, the
protocol name and bound address are logged. -/
theorem bind_failure_and_success_messages (p : Profile) (cause : String) :
    strHasSub (bindPanicMsg p cause) (bindAddr p) = true ∧
    strHasSub (bindPanicMsg p cause) cause = true ∧
    (p.log = true → bindOkLog p = some (p.name ++ (" Bind " ++ bindAddr p))) := by
  refine ⟨?_, ?_, fun h => by simp [bindOkLog, h]⟩
  · show charsHasSub (bindPanicMsg p cause).data (bindAddr p).data = true
    simp only [bindPanicMsg, bindFailMsg, String.data_append, List.append_assoc]
    apply charsHasSub_append_left
    exact charsHasSub_self_append _ _
  · show charsHasSub (bindPanicMsg p cause).data cause.data = true
    simp only [bindPanicMsg, bindFailMsg, String.data_append, List.append_assoc]
    apply charsHasSub_append_left
    apply charsHasSub_append_left
    apply charsHasSub_append_left
    apply charsHasSub_append_left
    exact charsHasSub_self _

/-- C9 (witness): the amended statement at the HTTP preset with a concrete
cause. -/
theorem bind_messages_witness :
    strHasSub (bindPanicMsg Profile.HTTP "cause") (bindAddr Profile.HTTP) = true ∧
    strHasSub (bindPanicMsg Profile.HTTP "cause") "cause" = true ∧
    bindOkLog Profile.HTTP
      = some (Profile.HTTP.name ++ (" Bind " ++ bindAddr Profile.HTTP)) := by
  have h := bind_failure_and_success_messages Profile.HTTP "cause"
  exact ⟨h.1, h.2.1, h.2.2 rfl⟩

end Rsms
